import Mathlib

/-!
Verification of the image-renaming tool in src/ImageFileRenaming.py.

The whole program is embedded shallowly:

* timestamps: datetime.strptime / strftime are modelled over List Char,
  restricted to the fixed-width all-digit inputs the spec's RawTimestamp
  format describes (Python additionally accepts some shorter or
  space-padded component spellings, which no claim exercises);
* the PIL collaborator (Image.open, _getexif) is an explicit environment:
  a function from file paths to either an IOError or an image value
  carrying its EXIF dictionary (None, or a key-value list);
* exceptions are Except / explicit control values; the effects of one run
  (prints, prompts, shutil.move calls, exit()) are collected in a trace;
* the file system seen by os.walk is an explicit finite tree.

Paths and strings are List Char throughout; os.sep is '/'.
-/

/-! ## Timestamps: datetime.strptime / strftime -/

/-- The six calendar fields datetime.strptime('%Y:%m:%d %H:%M:%S') extracts. -/
structure DateTime where
  year : Nat
  month : Nat
  day : Nat
  hour : Nat
  minute : Nat
  second : Nat
deriving DecidableEq, Repr

/-- Gregorian leap-year rule used by Python's datetime module. -/
def isLeap (y : Nat) : Bool :=
  decide (y % 4 = 0 ∧ (¬ y % 100 = 0 ∨ y % 400 = 0))

/-- Days in a month, as validated by the datetime constructor. -/
def days_in_month (y m : Nat) : Nat :=
  if m = 2 then (if isLeap y then 29 else 28)
  else if m = 4 ∨ m = 6 ∨ m = 9 ∨ m = 11 then 30
  else 31

/-- The range checks of the datetime constructor (MINYEAR = 1, MAXYEAR = 9999);
datetime.strptime raises ValueError when any of them fails. -/
def datetime_ok (dt : DateTime) : Bool :=
  decide (1 ≤ dt.year ∧ dt.year ≤ 9999 ∧
          1 ≤ dt.month ∧ dt.month ≤ 12 ∧
          1 ≤ dt.day ∧ dt.day ≤ days_in_month dt.year dt.month ∧
          dt.hour ≤ 23 ∧ dt.minute ≤ 59 ∧ dt.second ≤ 59)

/-- Build the datetime value, failing (ValueError) when out of range. -/
def checked (y mo d h mi s : Nat) : Option DateTime :=
  if datetime_ok ⟨y, mo, d, h, mi, s⟩ then some ⟨y, mo, d, h, mi, s⟩ else none

/-- Two decimal digit characters to a number (00..99), none if not digits. -/
def parse2 (a b : Char) : Option Nat :=
  if a.isDigit && b.isDigit then
    some (10 * (a.toNat - 48) + (b.toNat - 48))
  else none

/-- Four decimal digit characters to a number (0000..9999), none if not digits. -/
def parse4 (a b c d : Char) : Option Nat :=
  if a.isDigit && b.isDigit && c.isDigit && d.isDigit then
    some (1000 * (a.toNat - 48) + 100 * (b.toNat - 48) + 10 * (c.toNat - 48) + (d.toNat - 48))
  else none

/-- datetime.strptime against a format 'YYYYsMMsDD HHtMMtSS' with date
separator sa and time separator sb: exactly nineteen characters, digits at
the digit positions, separators at the separator positions, and the fields
in the datetime constructor's ranges. -/
def strptime_with (sa sb : Char) (l : List Char) : Option DateTime :=
  if l.length = 19 then
    if l.getD 4 ' ' = sa ∧ l.getD 7 ' ' = sa ∧ l.getD 10 ' ' = ' ' ∧
       l.getD 13 ' ' = sb ∧ l.getD 16 ' ' = sb then
      match parse4 (l.getD 0 ' ') (l.getD 1 ' ') (l.getD 2 ' ') (l.getD 3 ' '),
            parse2 (l.getD 5 ' ') (l.getD 6 ' '), parse2 (l.getD 8 ' ') (l.getD 9 ' '),
            parse2 (l.getD 11 ' ') (l.getD 12 ' '), parse2 (l.getD 14 ' ') (l.getD 15 ' '),
            parse2 (l.getD 17 ' ') (l.getD 18 ' ') with
      | some y, some mo, some d, some h, some mi, some s => checked y mo d h mi s
      | _, _, _, _, _, _ => none
    else none
  else none

/-- Character for the decimal digit n % 10 (core of zero-padded strftime fields). -/
def dcharCore : Nat → Char
  | 0 => '0'
  | 1 => '1'
  | 2 => '2'
  | 3 => '3'
  | 4 => '4'
  | 5 => '5'
  | 6 => '6'
  | 7 => '7'
  | 8 => '8'
  | _ => '9'

/-- Character for the decimal digit n % 10. -/
def dchar (n : Nat) : Char := dcharCore (n % 10)

/-- datetime.strftime against 'YYYYsMMsDD HHtMMtSS' with date separator sa and
time separator sb: each field zero-padded to its width (%Y as the four-digit
zero-padded year, which is what every input of the claims, a parsed four-digit
year, produces). -/
def strftime_with (sa sb : Char) (dt : DateTime) : List Char :=
  [dchar (dt.year / 1000), dchar (dt.year / 100), dchar (dt.year / 10), dchar dt.year, sa,
   dchar (dt.month / 10), dchar dt.month, sa,
   dchar (dt.day / 10), dchar dt.day, ' ',
   dchar (dt.hour / 10), dchar dt.hour, sb,
   dchar (dt.minute / 10), dchar dt.minute, sb,
   dchar (dt.second / 10), dchar dt.second]

/-- Line 43: datetime.strptime(ts, DATE_TIME_ORIGINAL_FORMAT = '%Y:%m:%d %H:%M:%S'). -/
def strptime_raw (l : List Char) : Option DateTime := strptime_with ':' ':' l

/-- Line 44: date_taken.strftime('%Y-%m-%d %H.%M.%S'). -/
def strftime_canonical (dt : DateTime) : List Char := strftime_with '-' '.' dt

/-- Reparsing a CanonicalTimestamp 'YYYY-MM-DD HH.MM.SS' (the round-trip
check the spec states for TimestampFormatter). -/
def strptime_canonical (l : List Char) : Option DateTime := strptime_with '-' '.' l

/-! ## The PIL collaborator and get_date_taken / is_image_file -/

deriving instance DecidableEq for Except

/-- The Python exceptions the script can leave uncaught. -/
inductive PyErr where
  | typeError
  | valueError
  | ioError
deriving DecidableEq, Repr

/-- What the script uses of a PIL image: the result of _getexif().
none models _getexif() returning None (no EXIF block); some d models an
EXIF dictionary with entries d. -/
structure PILImage where
  exifDict : Option (List (Nat × List Char))
deriving DecidableEq, Repr

/-- The external collaborator: Image.open either raises an IOError
(decode failure) or returns the image. Deterministic per path within a run. -/
structure Env where
  openImage : List Char → Except Unit PILImage

/-- Line 14: DATE_TIME_ORIGINAL_KEY = 36867. -/
def DATE_TIME_ORIGINAL_KEY : Nat := 36867

/-- Python dict lookup d[k]: some v if present, none models KeyError. -/
def dictLookup (k : Nat) : List (Nat × List Char) → Option (List Char)
  | [] => none
  | (k2, v) :: rest => if k2 = k then some v else dictLookup k rest

/-- Lines 38-44, get_date_taken: Image.open(filepath)._getexif()[36867] inside
a try that catches only KeyError (missing key, returns None). An _getexif()
result of None makes the subscript raise TypeError, which is not caught;
an IOError from Image.open is not caught either; a tag that
datetime.strptime rejects raises ValueError, outside the try. On success
the parsed timestamp is reformatted with strftime. -/
def get_date_taken (env : Env) (filepath : List Char) : Except PyErr (Option (List Char)) :=
  match env.openImage filepath with
  | .error _ => .error .ioError
  | .ok img =>
    match img.exifDict with
    | none => .error .typeError
    | some d =>
      match dictLookup DATE_TIME_ORIGINAL_KEY d with
      | none => .ok none
      | some raw =>
        match strptime_raw raw with
        | none => .error .valueError
        | some dt => .ok (some (strftime_canonical dt))

/-- Lines 84-88, is_image_file: Image.open inside try, except IOError
returns False, otherwise True. -/
def is_image_file (env : Env) (filepath : List Char) : Bool :=
  match env.openImage filepath with
  | .ok _ => true
  | .error _ => false

/-- Whether an Except value is a success (the spec's "open operation succeeds"). -/
def exceptIsOk : Except Unit PILImage → Bool
  | .ok _ => true
  | .error _ => false

/-! ## Path arithmetic: os.path.split / os.path.splitext with os.sep = '/' -/

/-- Index of the last occurrence of c in l (str.rfind, successful case). -/
def rfindIdx (c : Char) : List Char → Option Nat
  | [] => none
  | x :: xs =>
    match rfindIdx c xs with
    | some j => some (j + 1)
    | none => if x = c then some 0 else none

/-- str.rfind as Python returns it: the index, or -1 when absent. -/
def idxOrNeg : Option Nat → Int
  | none => -1
  | some j => (j : Int)

/-- Drop trailing '/' characters (head.rstrip('/')). -/
def rstripSlash (l : List Char) : List Char :=
  (l.reverse.dropWhile (fun ch => ch = '/')).reverse

/-- posixpath.split: cut after the last '/', then strip trailing slashes from
the head unless it is empty or all slashes. -/
def os_split (p : List Char) : List Char × List Char :=
  let i : Nat := match rfindIdx '/' p with
    | some j => j + 1
    | none => 0
  let head := p.take i
  let tail := p.drop i
  if head ≠ [] ∧ ¬ head.all (fun ch => ch = '/') then (rstripSlash head, tail)
  else (head, tail)

/-- posixpath.splitext: split at the last '.' when it lies strictly after the
last '/' and some character of the basename before it is not a '.'
(the leading-dots rule); otherwise the extension is empty. -/
def os_splitext (p : List Char) : List Char × List Char :=
  let sepIndex : Int := idxOrNeg (rfindIdx '/' p)
  let dotIndex : Int := idxOrNeg (rfindIdx '.' p)
  if sepIndex < dotIndex then
    let di := dotIndex.toNat
    let fi := (sepIndex + 1).toNat
    if ((p.drop fi).take (di - fi)).any (fun ch => ch != '.') then (p.take di, p.drop di)
    else (p, [])
  else (p, [])

/-- Lines 116, 118, 124: new_filepath = dir_name + os.sep + date_taken_timestamp
+ extension, with dir_name from os.path.split and extension from os.path.splitext. -/
def new_filepath (filepath ts : List Char) : List Char :=
  (os_split filepath).1 ++ '/' :: (ts ++ (os_splitext filepath).2)

/-! ## The file system seen by os.walk -/

mutual
/-- A directory: its files and its subdirectories. -/
inductive FSTree where
  | node (files : List (List Char)) (subdirs : FSForest)
/-- An ordered list of named subdirectories. -/
inductive FSForest where
  | nil
  | cons (name : List Char) (tree : FSTree) (rest : FSForest)
end

/-- The files at the top level of a directory. -/
def FSTree.topFiles : FSTree → List (List Char)
  | .node files _ => files

mutual
/-- os.walk top-down: the root's (dirpath, filenames) pair first, then each
subdirectory recursively, in order, rooted at dirpath + '/' + name. -/
def walk (path : List Char) (t : FSTree) : List (List Char × List (List Char)) :=
  match t with
  | .node files subdirs => (path, files) :: walkForest path subdirs
/-- os.walk over a list of subdirectories. -/
def walkForest (path : List Char) (f : FSForest) : List (List Char × List (List Char)) :=
  match f with
  | .nil => []
  | .cons name t rest => walk (path ++ '/' :: name) t ++ walkForest path rest
end

/-- Lines 58-71, get_files_in_directory: walk the tree when should_recurse,
else only next(os.walk(dirpath)) = the first pair; yield
dirpath + os.sep + filename for every listed filename. -/
def get_files_in_directory (dirpath : List Char) (tree : FSTree) (should_recurse : Bool) :
    List (List Char) :=
  let os_walk_values := if should_recurse then walk dirpath tree else (walk dirpath tree).take 1
  os_walk_values.flatMap (fun tr => tr.2.map (fun fn => tr.1 ++ '/' :: fn))

mutual
/-- Modelled from the spec: "recursive mode yields files at every depth"
(FileWalker contract); the comparison definition for the walker refinement. -/
def filesAtEveryDepth (path : List Char) (t : FSTree) : List (List Char) :=
  match t with
  | .node files subdirs =>
    files.map (fun fn => path ++ '/' :: fn) ++ filesAtEveryDepthForest path subdirs
/-- Modelled from the spec: files at every depth below a list of subdirectories. -/
def filesAtEveryDepthForest (path : List Char) (f : FSForest) : List (List Char) :=
  match f with
  | .nil => []
  | .cons name t rest =>
    filesAtEveryDepth (path ++ '/' :: name) t ++ filesAtEveryDepthForest path rest
end

/-- Lines 46-56, get_image_files_in_directory: the files of the walk that
is_image_file accepts. -/
def get_image_files_in_directory (env : Env) (dirpath : List Char) (tree : FSTree)
    (should_recurse : Bool) : List (List Char) :=
  (get_files_in_directory dirpath tree should_recurse).filter (fun fp => is_image_file env fp)

/-! ## The rename engine -/

/-- Observable effects of a run: text written to stdout (prints and the
input() prompt), and each shutil.move(src, dst) call. -/
inductive Event where
  | print (msg : List Char)
  | move (src dst : List Char)
deriving DecidableEq, Repr

/-- How a step leaves the process: fall through to the next file, exit()
(SystemExit, exit code 0), or an uncaught exception (nonzero exit). -/
inductive Ctl where
  | next
  | exited
  | crashed (e : PyErr)
deriving DecidableEq, Repr

/-- Process exit code for each control outcome: normal completion and exit()
give 0, an uncaught exception gives a nonzero status. -/
def exit_code : Ctl → Nat
  | .next => 0
  | .exited => 0
  | .crashed _ => 1

/-- Line 121: 'No date taken information for "filepath"'. -/
def noDateMsg (fp : List Char) : List Char :=
  "No date taken information for \"".data ++ fp ++ "\"".data

/-- Line 128: 'Renaming: "filepath" -> "new_filepath"'. -/
def renamingMsg (fp nfp : List Char) : List Char :=
  "Renaming: \"".data ++ fp ++ "\" -> \"".data ++ nfp ++ "\"".data

/-- Line 131: the input() prompt 'Rename "filepath" -> "new_filepath" [n]? '. -/
def promptMsg (fp nfp : List Char) : List Char :=
  "Rename \"".data ++ fp ++ "\" -> \"".data ++ nfp ++ "\" [n]? ".data

/-- str.lower for the ASCII range (all the characters the y/yes test compares). -/
def asciiLower (c : Char) : Char :=
  if 65 ≤ c.toNat ∧ c.toNat ≤ 90 then Char.ofNat (c.toNat + 32) else c

/-- response.lower() on the characters of the response. -/
def strLower (l : List Char) : List Char := l.map asciiLower

/-- Lines 102-137, rename_image_by_date_taken for one file. Inputs beyond the
source arguments: the collaborator environment, the VERBOSE flag, and the
stream of interactive responses (none models EOFError/KeyboardInterrupt at
the prompt, and an exhausted stream models a closed stdin). Returns the
event trace, the unconsumed responses, and the control outcome. -/
def rename_image_by_date_taken (env : Env) (verbose should_force : Bool)
    (filepath : List Char) (resp : List (Option (List Char))) :
    List Event × List (Option (List Char)) × Ctl :=
  if is_image_file env filepath = false then ([], resp, Ctl.next)
  else
    match get_date_taken env filepath with
    | .error e => ([], resp, Ctl.crashed e)
    | .ok none =>
      ((if verbose then [Event.print (noDateMsg filepath)] else []), resp, Ctl.next)
    | .ok (some ts) =>
      let nfp := new_filepath filepath ts
      if should_force then
        ((if verbose then [Event.print (renamingMsg filepath nfp)] else [])
          ++ [Event.move filepath nfp], resp, Ctl.next)
      else
        match resp with
        | [] => ([Event.print (promptMsg filepath nfp)], [], Ctl.exited)
        | none :: rest => ([Event.print (promptMsg filepath nfp)], rest, Ctl.exited)
        | some r :: rest =>
          if strLower r = "y".data ∨ strLower r = "yes".data then
            ([Event.print (promptMsg filepath nfp), Event.move filepath nfp], rest, Ctl.next)
          else
            ([Event.print (promptMsg filepath nfp)], rest, Ctl.next)

/-- Lines 99-100: the for-loop of rename_images_by_date_taken, applied to the
file list the walk produced. exit() and uncaught exceptions propagate out of
the loop, so processing stops at the first non-next outcome. -/
def rename_images_loop (env : Env) (verbose should_force : Bool) :
    List (List Char) → List (Option (List Char)) → List Event × Ctl
  | [], _ => ([], Ctl.next)
  | fp :: rest, resp =>
    let r := rename_image_by_date_taken env verbose should_force fp resp
    match r.2.2 with
    | Ctl.next =>
      let r2 := rename_images_loop env verbose should_force rest r.2.1
      (r.1 ++ r2.1, r2.2)
    | c => (r.1, c)

/-- Lines 90-100, rename_images_by_date_taken: the loop over
get_image_files_in_directory. -/
def rename_images_by_date_taken (env : Env) (tree : FSTree) (verbose : Bool)
    (dirpath : List Char) (should_recurse should_force : Bool)
    (resp : List (Option (List Char))) : List Event × Ctl :=
  rename_images_loop env verbose should_force
    (get_image_files_in_directory env dirpath tree should_recurse) resp

/-- The shutil.move calls of a trace, in order. -/
def movesOf (evs : List Event) : List (List Char × List Char) :=
  evs.filterMap (fun e => match e with
    | .move s d => some (s, d)
    | .print _ => none)

/-! ## Concrete environments used by witnesses and counterexamples -/

/-- A well-formed image at d/a.jpg with DateTimeOriginal 2012:01:02 20:01:49;
everything else fails to decode. -/
def envA : Env where
  openImage := fun fp =>
    if fp = "d/a.jpg".data then
      .ok ⟨some [(36867, "2012:01:02 20:01:49".data)]⟩
    else .error ()

/-- The canonical timestamp of envA's image. -/
def tsA : List Char := "2012-01-02 20.01.49".data

/-- A file already carrying its canonical name, with the matching tag. -/
def selfPath : List Char := "d/2012-01-02 20.01.49.jpg".data

/-- Environment for selfPath: the tag parses back to the name the file has. -/
def envSelf : Env where
  openImage := fun fp =>
    if fp = selfPath then
      .ok ⟨some [(36867, "2012:01:02 20:01:49".data)]⟩
    else .error ()

/-- Two decodable images: d/a.jpg has a malformed DateTimeOriginal tag,
d/b.jpg a well-formed one. -/
def envBatch : Env where
  openImage := fun fp =>
    if fp = "d/a.jpg".data then
      .ok ⟨some [(36867, "not a timestamp!".data)]⟩
    else if fp = "d/b.jpg".data then
      .ok ⟨some [(36867, "2012:01:02 20:01:49".data)]⟩
    else .error ()

/-- Two decodable images: d/noexif.jpg has no EXIF block at all
(_getexif() returns None), d/notag.jpg has an EXIF block without the
DateTimeOriginal key. -/
def envMeta : Env where
  openImage := fun fp =>
    if fp = "d/noexif.jpg".data then .ok ⟨none⟩
    else if fp = "d/notag.jpg".data then .ok ⟨some []⟩
    else .error ()


/-! # Theorems -/

/-! ## Digit and parsing lemmas -/

theorem dcharCore_isDigit (k : Nat) (h : k < 10) : (dcharCore k).isDigit = true := by
  interval_cases k <;> rfl

theorem dcharCore_toNat (k : Nat) (h : k < 10) : (dcharCore k).toNat = 48 + k := by
  interval_cases k <;> rfl

theorem dchar_isDigit (n : Nat) : (dchar n).isDigit = true :=
  dcharCore_isDigit (n % 10) (Nat.mod_lt n (by omega))

theorem dchar_toNat (n : Nat) : (dchar n).toNat = 48 + n % 10 :=
  dcharCore_toNat (n % 10) (Nat.mod_lt n (by omega))

theorem parse2_dchar (a b : Nat) :
    parse2 (dchar a) (dchar b) = some (10 * (a % 10) + b % 10) := by
  simp [parse2, dchar_isDigit, dchar_toNat, Nat.add_sub_cancel_left]

theorem parse4_dchar (a b c d : Nat) :
    parse4 (dchar a) (dchar b) (dchar c) (dchar d)
      = some (1000 * (a % 10) + 100 * (b % 10) + 10 * (c % 10) + d % 10) := by
  simp [parse4, dchar_isDigit, dchar_toNat, Nat.add_sub_cancel_left]

theorem checked_ok {y mo d h mi s : Nat} {dt : DateTime}
    (hc : checked y mo d h mi s = some dt) : datetime_ok dt = true := by
  unfold checked at hc
  split at hc
  case isTrue hok => cases hc; exact hok
  case isFalse => cases hc

theorem strptime_with_datetime_ok {sa sb : Char} {l : List Char} {dt : DateTime}
    (h : strptime_with sa sb l = some dt) : datetime_ok dt = true := by
  unfold strptime_with at h
  split at h
  case isTrue =>
    split at h
    case isTrue =>
      split at h
      all_goals first | exact checked_ok h | exact Option.noConfusion h
    case isFalse => exact Option.noConfusion h
  case isFalse => exact Option.noConfusion h

theorem strptime_with_cons (sa sb c0 c1 c2 c3 c4 c5 c6 c7 c8 c9 c10 c11 c12 c13 c14 c15 c16
    c17 c18 : Char) :
    strptime_with sa sb [c0, c1, c2, c3, c4, c5, c6, c7, c8, c9, c10, c11, c12, c13, c14,
        c15, c16, c17, c18]
      = if c4 = sa ∧ c7 = sa ∧ c10 = ' ' ∧ c13 = sb ∧ c16 = sb then
          match parse4 c0 c1 c2 c3, parse2 c5 c6, parse2 c8 c9, parse2 c11 c12,
                parse2 c14 c15, parse2 c17 c18 with
          | some y, some mo, some d, some h, some mi, some s => checked y mo d h mi s
          | _, _, _, _, _, _ => none
        else none := rfl

theorem days_in_month_le (y m : Nat) : days_in_month y m ≤ 31 := by
  unfold days_in_month
  split
  · split <;> omega
  · split <;> omega

theorem strptime_strftime_with (sa sb : Char) (dt : DateTime) (hok : datetime_ok dt = true) :
    strptime_with sa sb (strftime_with sa sb dt) = some dt := by
  obtain ⟨y, mo, d, hh, mi, s⟩ := dt
  have hb : 1 ≤ y ∧ y ≤ 9999 ∧ 1 ≤ mo ∧ mo ≤ 12 ∧ 1 ≤ d ∧
      d ≤ days_in_month y mo ∧ hh ≤ 23 ∧ mi ≤ 59 ∧ s ≤ 59 := by
    have h2 := hok
    rw [datetime_ok, decide_eq_true_eq] at h2
    exact h2
  obtain ⟨h1, h2, h3, h4, h5, h6, h7, h8, h9⟩ := hb
  have hd31 : d ≤ 31 := le_trans h6 (days_in_month_le y mo)
  rw [strftime_with, strptime_with_cons]
  rw [if_pos ⟨rfl, rfl, rfl, rfl, rfl⟩]
  rw [parse4_dchar, parse2_dchar, parse2_dchar, parse2_dchar, parse2_dchar, parse2_dchar]
  show checked (1000 * (y / 1000 % 10) + 100 * (y / 100 % 10) + 10 * (y / 10 % 10) + y % 10)
      (10 * (mo / 10 % 10) + mo % 10) (10 * (d / 10 % 10) + d % 10)
      (10 * (hh / 10 % 10) + hh % 10) (10 * (mi / 10 % 10) + mi % 10)
      (10 * (s / 10 % 10) + s % 10) = some ⟨y, mo, d, hh, mi, s⟩
  have ey : 1000 * (y / 1000 % 10) + 100 * (y / 100 % 10) + 10 * (y / 10 % 10) + y % 10 = y := by
    omega
  have emo : 10 * (mo / 10 % 10) + mo % 10 = mo := by omega
  have ed : 10 * (d / 10 % 10) + d % 10 = d := by omega
  have ehh : 10 * (hh / 10 % 10) + hh % 10 = hh := by omega
  have emi : 10 * (mi / 10 % 10) + mi % 10 = mi := by omega
  have es : 10 * (s / 10 % 10) + s % 10 = s := by omega
  rw [ey, emo, ed, ehh, emi, es]
  simp [checked, hok]

/-- C1: for every RawTimestamp string that get_date_taken's parsing step
accepts (the fixed YYYY:MM:DD HH:MM:SS shape with all-digit fixed-width
fields and a calendar-valid date), the formatting step's output
YYYY-MM-DD HH.MM.SS reparses to exactly the same year, month, day, hour,
minute and second. -/
theorem format_roundtrip (raw : List Char) (dt : DateTime)
    (h : strptime_raw raw = some dt) :
    strptime_canonical (strftime_canonical dt) = some dt :=
  strptime_strftime_with '-' '.' dt (strptime_with_datetime_ok h)

/-- Witness for C1 at the spec's own example, 2012:01:02 20:01:49. -/
theorem format_roundtrip_witness :
    strptime_raw "2012:01:02 20:01:49".data = some ⟨2012, 1, 2, 20, 1, 49⟩ ∧
    strptime_canonical (strftime_canonical ⟨2012, 1, 2, 20, 1, 49⟩)
      = some ⟨2012, 1, 2, 20, 1, 49⟩ :=
  ⟨by decide, format_roundtrip "2012:01:02 20:01:49".data ⟨2012, 1, 2, 20, 1, 49⟩ (by decide)⟩

/-! ## Path lemmas -/

theorem rfindIdx_drop {c : Char} : ∀ {l : List Char} {j : Nat},
    rfindIdx c l = some j → ∃ r, l.drop j = c :: r := by
  intro l
  induction l with
  | nil => intro j h; exact Option.noConfusion h
  | cons x xs ih =>
    intro j h
    unfold rfindIdx at h
    cases hr : rfindIdx c xs with
    | some j2 =>
      rw [hr] at h
      cases h
      obtain ⟨r, hr2⟩ := ih hr
      exact ⟨r, by simpa using hr2⟩
    | none =>
      rw [hr] at h
      have h2 : (if x = c then some 0 else none) = some j := h
      by_cases hx : x = c
      · rw [if_pos hx] at h2
        cases h2
        exact ⟨xs, by simp [hx]⟩
      · rw [if_neg hx] at h2
        exact Option.noConfusion h2

theorem idxOrNeg_ge (o : Option Nat) : -1 ≤ idxOrNeg o := by
  cases o with
  | none => simp [idxOrNeg]
  | some j => simp only [idxOrNeg]; omega

theorem os_splitext_cases (p : List Char) :
    (os_splitext p).1 ++ (os_splitext p).2 = p ∧
    ((os_splitext p).2 = [] ∨ ∃ r, (os_splitext p).2 = '.' :: r) := by
  simp only [os_splitext]
  split
  case isTrue hlt =>
    split
    case isTrue hany =>
      refine ⟨by simp [List.take_append_drop], ?_⟩
      right
      cases hdot : rfindIdx '.' p with
      | none =>
        exfalso
        rw [hdot] at hlt
        cases hsl : rfindIdx '/' p with
        | none => rw [hsl] at hlt; simp [idxOrNeg] at hlt
        | some k => rw [hsl] at hlt; simp [idxOrNeg] at hlt; omega
      | some j =>
        obtain ⟨r, hr⟩ := rfindIdx_drop hdot
        refine ⟨r, ?_⟩
        simpa [idxOrNeg] using hr
    case isFalse => simp
  case isFalse => simp

/-- C6: for every file reaching the rename step, the computed destination is
the source's directory (os.path.split head), then os.sep, then the canonical
timestamp, then the source's extension (os.path.splitext tail); the extension
is a verbatim trailing part of the source path and, when nonempty, begins
with its dot. -/
theorem destination_path_shape (fp ts : List Char) :
    new_filepath fp ts = (os_split fp).1 ++ '/' :: (ts ++ (os_splitext fp).2) ∧
    (os_splitext fp).1 ++ (os_splitext fp).2 = fp ∧
    ((os_splitext fp).2 = [] ∨ ∃ r, (os_splitext fp).2 = '.' :: r) :=
  ⟨rfl, (os_splitext_cases fp).1, (os_splitext_cases fp).2⟩

/-! ## Classification and metadata -/

/-- C5: is_image_file is a total boolean function of the open operation's
outcome: true exactly when Image.open succeeds, and a decode failure
(the IOError the collaborator signals) is converted to false rather than
propagated. -/
theorem is_image_file_never_raises (env : Env) (fp : List Char) :
    is_image_file env fp = exceptIsOk (env.openImage fp) := by
  unfold is_image_file exceptIsOk
  cases env.openImage fp <;> rfl

/-- C4 is a code bug: get_date_taken catches only KeyError, so on a decodable
image whose _getexif() is None (no embedded metadata block) the subscript
raises an uncaught TypeError instead of returning None as the docstring and
the spec promise; only the missing-tag case (an EXIF dictionary without key
36867) returns None. -/
theorem get_date_taken_missing_metadata :
    get_date_taken envMeta "d/noexif.jpg".data = .error PyErr.typeError ∧
    get_date_taken envMeta "d/notag.jpg".data = .ok none := by
  constructor
  · decide
  · decide

/-- C3 is a code bug: in a force-mode batch over two decodable images where
d/a.jpg carries a malformed DateTimeOriginal tag, the ValueError from
datetime.strptime propagates out of the loop: the trace is empty (no per-file
report, no move) and d/b.jpg is never examined, although processing d/b.jpg
alone would rename it; the process dies with a nonzero status. -/
theorem malformed_tag_crashes_batch :
    rename_images_loop envBatch false true ["d/a.jpg".data, "d/b.jpg".data] []
      = ([], Ctl.crashed PyErr.valueError) ∧
    rename_images_loop envBatch false true ["d/b.jpg".data] []
      = ([Event.move "d/b.jpg".data "d/2012-01-02 20.01.49.jpg".data], Ctl.next) ∧
    exit_code (Ctl.crashed PyErr.valueError) ≠ 0 := by
  refine ⟨by decide, by decide, by decide⟩

/-! ## The move-to-self counterexample and the amended force-mode behaviour -/

/-- C2 counterexample: a file already carrying its canonical name, whose tag
still matches, is moved onto itself by a force-mode run - the claim that a
move to the starting path never happens is false of the code. -/
theorem move_to_same_path_counterexample :
    (rename_image_by_date_taken envSelf false true selfPath []).1
      = [Event.move selfPath selfPath] := by
  decide

/-- C2 amended: whenever a file is classified as an image and its timestamp
resolves, a force-mode run performs the move to the computed destination
unconditionally - there is no guard comparing destination with source, so a
second run over canonically named files moves each file onto itself. -/
theorem force_move_unconditional (env : Env) (v : Bool) (fp ts : List Char)
    (resp : List (Option (List Char)))
    (h1 : is_image_file env fp = true)
    (h2 : get_date_taken env fp = .ok (some ts)) :
    rename_image_by_date_taken env v true fp resp
      = ((if v then [Event.print (renamingMsg fp (new_filepath fp ts))] else [])
          ++ [Event.move fp (new_filepath fp ts)], resp, Ctl.next) := by
  unfold rename_image_by_date_taken
  rw [h1, h2]
  simp

/-- Witness for the amended C2 at the self-move input: the move is performed
and its destination is the source path itself. -/
theorem force_move_unconditional_witness :
    rename_image_by_date_taken envSelf false true selfPath []
      = ([Event.move selfPath (new_filepath selfPath tsA)], [], Ctl.next) ∧
    new_filepath selfPath tsA = selfPath := by
  constructor
  · have h := force_move_unconditional envSelf false selfPath tsA []
      (by decide) (by decide)
    rw [h]
    decide
  · decide

/-! ## Confirmation and cancellation -/

/-- C7: in non-force mode, once a file's timestamp has resolved, the prompt is
printed and the move happens exactly when response.lower() is y or yes; any
other response, the empty response included, leaves the file unmoved (the
default is no). -/
theorem confirmation_gates_move (env : Env) (v : Bool) (fp ts r : List Char)
    (rest : List (Option (List Char)))
    (h1 : is_image_file env fp = true)
    (h2 : get_date_taken env fp = .ok (some ts)) :
    rename_image_by_date_taken env v false fp (some r :: rest)
      = (Event.print (promptMsg fp (new_filepath fp ts)) ::
          (if strLower r = "y".data ∨ strLower r = "yes".data
           then [Event.move fp (new_filepath fp ts)] else []),
         rest, Ctl.next) := by
  unfold rename_image_by_date_taken
  rw [h1, h2]
  by_cases hr : strLower r = "y".data ∨ strLower r = "yes".data
  · simp [hr]
  · simp [hr]

/-- Witness for C7: an uppercase YES is affirmative and moves the file; the
empty response skips it. -/
theorem confirmation_gates_move_witness :
    rename_image_by_date_taken envA false false "d/a.jpg".data [some "YES".data]
      = ([Event.print (promptMsg "d/a.jpg".data (new_filepath "d/a.jpg".data tsA)),
          Event.move "d/a.jpg".data (new_filepath "d/a.jpg".data tsA)], [], Ctl.next) ∧
    rename_image_by_date_taken envA false false "d/a.jpg".data [some ([] : List Char)]
      = ([Event.print (promptMsg "d/a.jpg".data (new_filepath "d/a.jpg".data tsA))],
         [], Ctl.next) := by
  constructor
  · have h := confirmation_gates_move envA false "d/a.jpg".data tsA "YES".data []
      (by decide) (by decide)
    rw [h]
    decide
  · have h := confirmation_gates_move envA false "d/a.jpg".data tsA [] []
      (by decide) (by decide)
    rw [h]
    decide

/-- C8: a cancelled prompt (EOFError or KeyboardInterrupt at input()) makes
the run call exit(): the file being prompted for is not moved, no later file
of the batch is examined, the whole loop returns with only the prompt printed,
and the process status of exit() is 0. -/
theorem prompt_cancelled_aborts (env : Env) (v : Bool) (fp ts : List Char)
    (more : List (List Char)) (rest : List (Option (List Char)))
    (h1 : is_image_file env fp = true)
    (h2 : get_date_taken env fp = .ok (some ts)) :
    rename_images_loop env v false (fp :: more) (none :: rest)
      = ([Event.print (promptMsg fp (new_filepath fp ts))], Ctl.exited) ∧
    exit_code Ctl.exited = 0 := by
  have hstep : rename_image_by_date_taken env v false fp (none :: rest)
      = ([Event.print (promptMsg fp (new_filepath fp ts))], rest, Ctl.exited) := by
    unfold rename_image_by_date_taken
    rw [h1, h2]
    simp
  refine ⟨?_, rfl⟩
  simp only [rename_images_loop]
  rw [hstep]

/-- Witness for C8: cancelling at the first prompt of a two-file batch leaves
only the prompt in the trace and a graceful exit. -/
theorem prompt_cancelled_aborts_witness :
    rename_images_loop envA false false ["d/a.jpg".data, "d/b.jpg".data] [none]
      = ([Event.print (promptMsg "d/a.jpg".data (new_filepath "d/a.jpg".data tsA))],
         Ctl.exited) ∧
    exit_code Ctl.exited = 0 :=
  prompt_cancelled_aborts envA false "d/a.jpg".data tsA ["d/b.jpg".data] []
    (by decide) (by decide)

/-! ## The file walker -/

theorem walk_take_one (dirpath : List Char) (tree : FSTree) :
    (walk dirpath tree).take 1 = [(dirpath, FSTree.topFiles tree)] := by
  cases tree
  rfl

mutual
theorem walk_files_eq (path : List Char) (t : FSTree) :
    (walk path t).flatMap (fun tr => tr.2.map (fun fn => tr.1 ++ '/' :: fn))
      = filesAtEveryDepth path t := by
  cases t with
  | node files subdirs =>
    simp only [walk, filesAtEveryDepth, List.flatMap_cons]
    rw [walkForest_files_eq path subdirs]
theorem walkForest_files_eq (path : List Char) (f : FSForest) :
    (walkForest path f).flatMap (fun tr => tr.2.map (fun fn => tr.1 ++ '/' :: fn))
      = filesAtEveryDepthForest path f := by
  cases f with
  | nil => rfl
  | cons name t rest =>
    simp only [walkForest, filesAtEveryDepthForest, List.flatMap_append]
    rw [walk_files_eq (path ++ '/' :: name) t, walkForest_files_eq path rest]
end

/-- C9: non-recursive get_files_in_directory yields exactly the top-level
files of the root (each as root + os.sep + name, no directories, nothing from
subdirectories); recursive mode yields the files at every depth, as collected
by the spec-side filesAtEveryDepth. -/
theorem get_files_modes (dirpath : List Char) (tree : FSTree) :
    get_files_in_directory dirpath tree false
      = (FSTree.topFiles tree).map (fun fn => dirpath ++ '/' :: fn) ∧
    get_files_in_directory dirpath tree true = filesAtEveryDepth dirpath tree := by
  constructor
  · simp [get_files_in_directory, walk_take_one]
  · simp [get_files_in_directory, walk_files_eq]

/-! ## Verbosity non-interference -/

theorem movesOf_append (xs ys : List Event) :
    movesOf (xs ++ ys) = movesOf xs ++ movesOf ys := by
  simp [movesOf, List.filterMap_append]

theorem rename_image_verbose_indep (env : Env) (force : Bool) (fp : List Char)
    (resp : List (Option (List Char))) (v v2 : Bool) :
    movesOf (rename_image_by_date_taken env v force fp resp).1
      = movesOf (rename_image_by_date_taken env v2 force fp resp).1 ∧
    (rename_image_by_date_taken env v force fp resp).2
      = (rename_image_by_date_taken env v2 force fp resp).2 := by
  unfold rename_image_by_date_taken
  by_cases h1 : is_image_file env fp = false
  · rw [if_pos h1, if_pos h1]
    exact ⟨rfl, rfl⟩
  · rw [if_neg h1, if_neg h1]
    cases hg : get_date_taken env fp with
    | error e => exact ⟨rfl, rfl⟩
    | ok dts =>
      cases dts with
      | none =>
        refine ⟨?_, rfl⟩
        cases v <;> cases v2 <;> rfl
      | some ts =>
        cases force with
        | true =>
          refine ⟨?_, rfl⟩
          cases v <;> cases v2 <;> rfl
        | false =>
          cases resp with
          | nil => exact ⟨rfl, rfl⟩
          | cons o rest =>
            cases o with
            | none => exact ⟨rfl, rfl⟩
            | some r => exact ⟨rfl, rfl⟩

theorem rename_images_loop_verbose_indep (env : Env) (force v v2 : Bool) :
    ∀ (fps : List (List Char)) (resp : List (Option (List Char))),
    movesOf (rename_images_loop env v force fps resp).1
      = movesOf (rename_images_loop env v2 force fps resp).1 ∧
    (rename_images_loop env v force fps resp).2
      = (rename_images_loop env v2 force fps resp).2 := by
  intro fps
  induction fps with
  | nil => intro resp; exact ⟨rfl, rfl⟩
  | cons fp rest ih =>
    intro resp
    obtain ⟨hm, hp⟩ := rename_image_verbose_indep env force fp resp v v2
    simp only [rename_images_loop]
    rw [hp]
    cases hc : (rename_image_by_date_taken env v2 force fp resp).2.2 with
    | next =>
      obtain ⟨ihm, ihp⟩ := ih ((rename_image_by_date_taken env v2 force fp resp).2.1)
      refine ⟨?_, ihp⟩
      rw [movesOf_append, movesOf_append, hm, ihm]
    | exited => exact ⟨hm, rfl⟩
    | crashed e => exact ⟨hm, rfl⟩

/-- C10: the VERBOSE flag never influences which files are moved: for any
environment, directory tree, flags and confirmation responses, the verbose
and non-verbose runs perform the same sequence of shutil.move operations
(and consume input and terminate identically); verbosity changes only the
printed text. -/
theorem verbose_independence (env : Env) (tree : FSTree) (dirpath : List Char)
    (rec force : Bool) (resp : List (Option (List Char))) :
    movesOf (rename_images_by_date_taken env tree true dirpath rec force resp).1
      = movesOf (rename_images_by_date_taken env tree false dirpath rec force resp).1 ∧
    (rename_images_by_date_taken env tree true dirpath rec force resp).2
      = (rename_images_by_date_taken env tree false dirpath rec force resp).2 :=
  rename_images_loop_verbose_indep env force true false
    (get_image_files_in_directory env dirpath tree rec) resp
